import Mathlib

/-!
The file `cmd/controller/controller.go`.

A shallow embedding of the `controller` sub-command: the `options` record, the flag
defaults bound by `ControllerCmd`, the kubeconfig resolution of `controllerConfig`, and
`options.run`, which assembles the `manager.ControllerConfig` and hands control to the
leader elector.

Everything `run` calls outside this file (viper, the process environment, the file
system, `clientcmd.BuildConfigFromFlags`, the leader elector and the manager) is an
input of the model, collected in `World`.  `run` is a total function from the options
and the world to the ordered list of observable events and the way the call ends.
-/

namespace Controller

/-- A Go `error` value: `none` is the nil error, `some msg` an error whose `Error()`
string is `msg`. -/
abbrev GoError := Option String

namespace aws

/-- Modelled from the spec: the type `aws.ZoneType` of package `pkg/cloudprovider/aws`,
which is not part of the sources at hand.  `run` converts its constants with
`string(...)`, so it is a string type; its zero value is the empty string. -/
structure ZoneType where
  val : String
deriving DecidableEq, Repr

/-- Modelled from the spec: the constant `aws.ZoneTypePublic`, missing from the sources;
the zone-type selector is the enumeration {public, private, unset} and the flag
`route53-zone-type` documents the values 'public' and 'private'. -/
def ZoneTypePublic : ZoneType := ⟨"public"⟩

/-- Modelled from the spec: the constant `aws.ZoneTypePrivate`, missing from the sources;
see `ZoneTypePublic`. -/
def ZoneTypePrivate : ZoneType := ⟨"private"⟩

/-- The zero value of `aws.ZoneType` (`var route53ZoneType aws.ZoneType`). -/
def ZoneTypeUnset : ZoneType := ⟨""⟩

end aws

/-- The struct `options` (controller.go, lines 20-26).  A Go map is kept as the list of
its key/value pairs. -/
structure options where
  workers : Int
  clusterName : String
  annotationFilters : List (String × String)
  route53ZoneType : String
  route53TXTOwnerID : String
deriving DecidableEq, Repr

/-- The fields of `globalaccelerator.GlobalAcceleratorConfig` that `run` sets. -/
structure GlobalAcceleratorConfig where
  Workers : Int
  ClusterName : String
deriving DecidableEq, Repr

/-- The fields of `route53.Route53Config` that `run` sets. -/
structure Route53Config where
  Workers : Int
  ClusterName : String
  AnnotationFilters : List (String × String)
  TXTOwnerID : String
  ZoneType : aws.ZoneType
deriving DecidableEq, Repr

/-- The fields of `endpointgroupbinding.EndpointGroupBindingConfig` that `run` sets. -/
structure EndpointGroupBindingConfig where
  Workers : Int
deriving DecidableEq, Repr

/-- The struct `manager.ControllerConfig`: three pointer fields, `none` being nil. -/
structure ControllerConfig where
  GlobalAccelerator : Option GlobalAcceleratorConfig
  Route53 : Option Route53Config
  EndpointGroupBinding : Option EndpointGroupBindingConfig
deriving DecidableEq, Repr

/-- A `*rest.Config`; `run` only passes it on, so one identifying field stands for it. -/
structure RestConfig where
  Host : String
deriving DecidableEq, Repr

/-- What the leader elector does once `le.Run` is called, as far as `run` can observe:
the `onStart` invocations it makes in order, each with the client configuration it passes
and with what `m.Run` does in that invocation (`none`: it does not return,
`some err`: it returns `err`), and then what `le.Run` itself returns
(`none`: it does not return, `some err`: it returns `err`, which may be nil). -/
structure ElectorBehaviour where
  epochs : List (RestConfig × Option GoError)
  result : Option GoError

/-- Everything outside controller.go that `run` and `controllerConfig` consult. -/
structure World where
  /-- The function `viper.GetString`. -/
  viperGetString : String → String
  /-- The process environment; `none` for a variable that is not set. -/
  lookupEnv : String → Option String
  /-- The error of `os.Stat` on a path (`none`: the call succeeds). -/
  stat : String → GoError
  /-- The function `clientcmd.BuildConfigFromFlags masterURL kubeconfig`. -/
  buildConfigFromFlags : String → String → Except String RestConfig
  /-- The elector made by `NewLeaderElection name ns` and run on a client config. -/
  elector : String → String → RestConfig → ElectorBehaviour

/-- The function `os.Getenv`: the value of the variable, the empty string when unset. -/
def World.getenv (w : World) (key : String) : String :=
  (w.lookupEnv key).getD ""

/-- The observable steps of `run`, in the order they happen. -/
inductive Event where
  /-- A line logged with `klog.Info` or `klog.Infof`. -/
  | info (msg : String)
  /-- A line logged with `klog.Error`. -/
  | error (msg : String)
  /-- A line logged with `klog.Fatalf`, which then ends the process. -/
  | fatal (msg : String)
  /-- The call `leaderelection.NewLeaderElection name ns`. -/
  | newLeaderElection (name ns : String)
  /-- The call `le.Run ctx cfg onStart`. -/
  | leRun (cfg : RestConfig)
  /-- One invocation of the callback passed to `le.Run`. -/
  | onStart (clientConfig : RestConfig)
  /-- The call `manager.NewManager()`. -/
  | newManager
  /-- The call `m.Run ctx clientConfig &config stopCh`. -/
  | managerRun (clientConfig : RestConfig) (config : ControllerConfig)
deriving DecidableEq, Repr

/-- How a call of `run` ends. -/
inductive Outcome where
  /-- The function returns to its caller. -/
  | returned
  /-- The process was ended by `klog.Fatalf`. -/
  | fatalExit
  /-- A method was called on a nil `error`: nil-dereference panic. -/
  | nilPanic
  /-- A callee (`le.Run` or `m.Run`) never returned. -/
  | blocked
deriving DecidableEq, Repr

/-- How one invocation of the `onStart` callback ends. -/
inductive CallbackEnd where
  /-- The callback returns to the leader elector. -/
  | returned
  /-- The callback ended the process with `klog.Fatalf`. -/
  | fatalExit
  /-- The call `m.Run` never returned. -/
  | blocked
deriving DecidableEq, Repr

/-- The options as `ControllerCmd` leaves them (lines 29-40): `o := &options{}`, then each
`flags.XxxVar(&o.field, name, default, usage)` stores its default in the field.  Parsing
a command line on which no flag is supplied changes none of them. -/
def ControllerCmd : options :=
  let o : options :=
    { workers := 0, clusterName := "", annotationFilters := [],
      route53ZoneType := "", route53TXTOwnerID := "" }
  let o := { o with workers := 1 }
  let o := { o with clusterName := "default" }
  let o := { o with annotationFilters := [] }
  let o := { o with route53ZoneType := "" }
  let o := { o with route53TXTOwnerID := "aws-global-accelerator-controller" }
  o

/-- The call `os.ExpandEnv "$HOME/.kube/config"`: the variable reference is replaced
by the value of `HOME` (empty when unset). -/
def expandHomeKubeConfig (w : World) : String :=
  w.getenv "HOME" ++ "/.kube/config"

/-- The function `controllerConfig` (lines 103-117): the events it logs, and the pair
`(kubeconfig, master)` it returns. -/
def controllerConfig (w : World) : List Event × (String × String) :=
  let kubeconfig := w.viperGetString "kubeconfig"
  let (log, kubeconfig) :=
    if kubeconfig = "" then
      let kubeconfig := w.getenv "KUBECONFIG"
      if kubeconfig = "" then
        let kubeconfig := expandHomeKubeConfig w
        match w.stat kubeconfig with
        | some err => ([Event.error err], "")
        | none => ([], kubeconfig)
      else ([], kubeconfig)
    else ([], kubeconfig)
  let master := w.viperGetString "master"
  (log, (kubeconfig, master))

/-- Lines 62-65 of `run`: the namespace of the lease. -/
def run_ns (w : World) : String :=
  let ns := w.getenv "POD_NAMESPACE"
  if ns = "" then "default" else ns

/-- Lines 67-73 of `run`: the switch over `o.route53ZoneType`, which has no default
case, so any other string leaves the variable at its zero value. -/
def run_route53ZoneType (o : options) : aws.ZoneType :=
  if o.route53ZoneType = aws.ZoneTypePublic.val then aws.ZoneTypePublic
  else if o.route53ZoneType = aws.ZoneTypePrivate.val then aws.ZoneTypePrivate
  else aws.ZoneTypeUnset

/-- Lines 75-90 of `run`: the `manager.ControllerConfig` literal. -/
def run_config (o : options) : ControllerConfig :=
  { GlobalAccelerator := some
      { Workers := o.workers
        ClusterName := o.clusterName }
    Route53 := some
      { Workers := o.workers
        ClusterName := o.clusterName
        AnnotationFilters := o.annotationFilters
        TXTOwnerID := o.route53TXTOwnerID
        ZoneType := run_route53ZoneType o }
    EndpointGroupBinding := some
      { Workers := o.workers } }

/-- Lines 94-99 of `run`: one invocation of the callback given to `le.Run`, on the
client configuration the elector passes and with what `m.Run` does. -/
def run_onStart (config : ControllerConfig) (clientConfig : RestConfig)
    (mRun : Option GoError) : List Event × CallbackEnd :=
  let evs := [Event.onStart clientConfig, Event.newManager,
    Event.managerRun clientConfig config]
  match mRun with
  | none => (evs, CallbackEnd.blocked)
  | some (some err) =>
    (evs ++ [Event.fatal ("Error running controller: " ++ err)], CallbackEnd.fatalExit)
  | some none => (evs, CallbackEnd.returned)

/-- The callback invocations of one `le.Run`, in order: they stop at the first one that
does not return to the elector.  The second component is `none` when every invocation
returned. -/
def run_epochs (config : ControllerConfig) :
    List (RestConfig × Option GoError) → List Event × Option Outcome
  | [] => ([], none)
  | (clientConfig, mRun) :: rest =>
    match run_onStart config clientConfig mRun with
    | (evs, CallbackEnd.returned) =>
      let (evs', out) := run_epochs config rest
      (evs ++ evs', out)
    | (evs, CallbackEnd.fatalExit) => (evs, some Outcome.fatalExit)
    | (evs, CallbackEnd.blocked) => (evs, some Outcome.blocked)

/-- Line 100 of `run`: `klog.Fatalf("Error starting controller: %s", err.Error())` on the
error `le.Run` returned.  `err.Error()` is evaluated first, whatever `err` is. -/
def run_last (err : GoError) : List Event × Outcome :=
  match err with
  | none => ([], Outcome.nilPanic)
  | some msg => ([Event.fatal ("Error starting controller: " ++ msg)], Outcome.fatalExit)

/-- The method `options.run` (lines 50-101). -/
def run (o : options) (w : World) : List Event × Outcome :=
  let (log, kubeconfig, masterURL) := controllerConfig w
  let log :=
    if kubeconfig ≠ "" then log ++ [Event.info ("Using kubeconfig: " ++ kubeconfig)]
    else log ++ [Event.info "Using in-cluster config"]
  match w.buildConfigFromFlags masterURL kubeconfig with
  | Except.error err =>
    (log ++ [Event.fatal ("Error building rest config: " ++ err)], Outcome.fatalExit)
  | Except.ok cfg =>
    let ns := run_ns w
    let config := run_config o
    let le := w.elector "aws-global-accelerator-controller" ns cfg
    let log := log ++ [Event.newLeaderElection "aws-global-accelerator-controller" ns,
      Event.leRun cfg]
    match run_epochs config le.epochs with
    | (evs, some out) => (log ++ evs, out)
    | (evs, none) =>
      match le.result with
      | none => (log ++ evs, Outcome.blocked)
      | some err =>
        let (evs', out) := run_last err
        (log ++ evs ++ evs', out)

/-! ## Concrete inputs -/

/-- A world outside any cluster set-up: no flag, no environment variable, no kubeconfig
file; the client configuration builds; the elector makes no invocation and does not
return. -/
def worldIdle : World where
  viperGetString := fun _ => ""
  lookupEnv := fun _ => none
  stat := fun _ => some "stat /.kube/config: no such file or directory"
  buildConfigFromFlags := fun _ _ => Except.ok ⟨"in-cluster"⟩
  elector := fun _ _ _ => ⟨[], none⟩

/-- The options of the command line `--route53-zone-type invalid`. -/
def optionsInvalidZone : options := { ControllerCmd with route53ZoneType := "invalid" }

/-- A world in which the elector makes one callback invocation, whose `m.Run` returns
nil, and then does not return; `POD_NAMESPACE` is set to `kube-system`. -/
def worldOneEpoch : World where
  viperGetString := fun _ => ""
  lookupEnv := fun key => if key = "POD_NAMESPACE" then some "kube-system" else none
  stat := fun _ => some "stat /.kube/config: no such file or directory"
  buildConfigFromFlags := fun _ _ => Except.ok ⟨"in-cluster"⟩
  elector := fun _ _ cfg => ⟨[(cfg, some none)], none⟩

/-- Options with every field set away from its default. -/
def optionsSample : options :=
  { workers := 4, clusterName := "prod", annotationFilters := [("team", "edge")],
    route53ZoneType := "private", route53TXTOwnerID := "owner-a" }

/-- A world whose client configuration cannot be built. -/
def worldBadClient : World where
  viperGetString := fun key => if key = "kubeconfig" then "/tmp/broken" else ""
  lookupEnv := fun _ => none
  stat := fun _ => none
  buildConfigFromFlags := fun _ _ => Except.error "invalid configuration"
  elector := fun _ _ cfg => ⟨[(cfg, some none)], some (some "unreachable")⟩

/-- A world in which `m.Run` of the first callback invocation returns the error `boom`;
the elector would make a second invocation and keep running afterwards. -/
def worldManagerFails : World where
  viperGetString := fun _ => ""
  lookupEnv := fun _ => none
  stat := fun _ => none
  buildConfigFromFlags := fun _ _ => Except.ok ⟨"in-cluster"⟩
  elector := fun _ _ cfg => ⟨[(cfg, some (some "boom")), (cfg, some none)], none⟩

/-- A world in which the elector makes one callback invocation, whose `m.Run` returns
nil, and then `le.Run` returns a nil error. -/
def worldElectorReturnsNil : World where
  viperGetString := fun _ => ""
  lookupEnv := fun _ => none
  stat := fun _ => none
  buildConfigFromFlags := fun _ _ => Except.ok ⟨"in-cluster"⟩
  elector := fun _ _ cfg => ⟨[(cfg, some none)], some none⟩

/-- A world with the `kubeconfig` flag empty, `KUBECONFIG` unset, `HOME` set and a
kubeconfig file present under it; the `master` flag is given. -/
def worldHomeConfig : World where
  viperGetString := fun key => if key = "master" then "https://10.0.0.1:6443" else ""
  lookupEnv := fun key => if key = "HOME" then some "/home/op" else none
  stat := fun path => if path = "/home/op/.kube/config" then none else some "no such file"
  buildConfigFromFlags := fun _ _ => Except.ok ⟨"https://10.0.0.1:6443"⟩
  elector := fun _ _ _ => ⟨[], none⟩

/-- The number of callback invocations in a list of events. -/
def countOnStart : List Event → Nat
  | [] => 0
  | Event.onStart _ :: rest => countOnStart rest + 1
  | _ :: rest => countOnStart rest

/-! ## Shared lemmas -/

/-- Every `m.Run` of the callback invocations receives the configuration given. -/
theorem run_epochs_managerRun (config : ControllerConfig)
    (eps : List (RestConfig × Option GoError)) (cc : RestConfig) (c : ControllerConfig)
    (h : Event.managerRun cc c ∈ (run_epochs config eps).1) : c = config := by
  induction eps with
  | nil => simp [run_epochs] at h
  | cons ep rest ih =>
    obtain ⟨cc0, mRun⟩ := ep
    rcases mRun with _ | (_ | err)
    · simp [run_epochs, run_onStart] at h
      exact h.2
    · simp only [run_epochs, run_onStart] at h
      rcases List.mem_append.1 h with h | h
      · simp at h
        exact h.2
      · exact ih h
    · simp [run_epochs, run_onStart] at h
      exact h.2

/-- The shape of `run` once the client configuration is built. -/
theorem run_of_ok (o : options) (w : World) (cfg : RestConfig)
    (h : w.buildConfigFromFlags (controllerConfig w).2.2 (controllerConfig w).2.1
      = Except.ok cfg) :
    ∃ pre post, (∀ e ∈ pre, (∃ m, e = Event.info m) ∨ (∃ m, e = Event.error m)) ∧
      (run o w).1 = pre ++ Event.newLeaderElection "aws-global-accelerator-controller"
        (run_ns w) :: Event.leRun cfg :: post ∧
      ((∃ out, (run_epochs (run_config o)
          (w.elector "aws-global-accelerator-controller" (run_ns w) cfg).epochs)
            = (post, some out) ∧ (run o w).2 = out) ∨
       (∃ evs, (run_epochs (run_config o)
          (w.elector "aws-global-accelerator-controller" (run_ns w) cfg).epochs)
            = (evs, none) ∧
          (((w.elector "aws-global-accelerator-controller" (run_ns w) cfg).result = none
              ∧ post = evs ∧ (run o w).2 = Outcome.blocked) ∨
           (∃ err, (w.elector "aws-global-accelerator-controller" (run_ns w) cfg).result
              = some err ∧ post = evs ++ (run_last err).1
              ∧ (run o w).2 = (run_last err).2)))) := by
  have hlog : ∀ e ∈ (controllerConfig w).1,
      (∃ m, e = Event.info m) ∨ (∃ m, e = Event.error m) := by
    intro e he
    unfold controllerConfig at he
    simp only at he
    split_ifs at he
    · split at he <;> simp at he
      exact Or.inr ⟨_, he⟩
    · simp at he
    · simp at he
  rcases hc : controllerConfig w with ⟨log, k, m⟩
  rw [hc] at h hlog
  simp only at h hlog
  rcases he : run_epochs (run_config o)
    (w.elector "aws-global-accelerator-controller" (run_ns w) cfg).epochs with ⟨evs, out⟩
  refine ⟨if k ≠ "" then log ++ [Event.info ("Using kubeconfig: " ++ k)]
    else log ++ [Event.info "Using in-cluster config"], ?_⟩
  have hpre : ∀ e ∈ (if k ≠ "" then log ++ [Event.info ("Using kubeconfig: " ++ k)]
      else log ++ [Event.info "Using in-cluster config"]),
      (∃ m, e = Event.info m) ∨ (∃ m, e = Event.error m) := by
    intro e he
    split_ifs at he
    · rcases List.mem_append.1 he with h1 | h1
      · exact hlog e h1
      · simp at h1
        exact Or.inl ⟨_, h1⟩
    · rcases List.mem_append.1 he with h1 | h1
      · exact hlog e h1
      · simp at h1
        exact Or.inl ⟨_, h1⟩
  rcases out with _ | out
  · rcases hr : (w.elector "aws-global-accelerator-controller" (run_ns w) cfg).result
      with _ | err
    · refine ⟨evs, hpre, ?_, Or.inr ⟨evs, rfl, Or.inl ⟨rfl, rfl, ?_⟩⟩⟩
      · simp [run, hc, h, he, hr]
      · simp [run, hc, h, he, hr]
    · refine ⟨evs ++ (run_last err).1, hpre, ?_,
        Or.inr ⟨evs, rfl, Or.inr ⟨err, rfl, rfl, ?_⟩⟩⟩
      · simp [run, hc, h, he, hr]
      · simp [run, hc, h, he, hr]
  · refine ⟨evs, hpre, ?_, Or.inl ⟨out, rfl, ?_⟩⟩
    · simp [run, hc, h, he]
    · simp [run, hc, h, he]

/-- The shape of `run` when the client configuration cannot be built. -/
theorem run_of_error (o : options) (w : World) (err : String)
    (h : w.buildConfigFromFlags (controllerConfig w).2.2 (controllerConfig w).2.1
      = Except.error err) :
    ∃ pre, (∀ e ∈ pre, (∃ m, e = Event.info m) ∨ (∃ m, e = Event.error m)) ∧
      run o w = (pre ++ [Event.fatal ("Error building rest config: " ++ err)],
        Outcome.fatalExit) := by
  have hlog : ∀ e ∈ (controllerConfig w).1,
      (∃ m, e = Event.info m) ∨ (∃ m, e = Event.error m) := by
    intro e he
    unfold controllerConfig at he
    simp only at he
    split_ifs at he
    · split at he <;> simp at he
      exact Or.inr ⟨_, he⟩
    · simp at he
    · simp at he
  rcases hc : controllerConfig w with ⟨log, k, m⟩
  rw [hc] at h hlog
  simp only at h hlog
  refine ⟨if k ≠ "" then log ++ [Event.info ("Using kubeconfig: " ++ k)]
    else log ++ [Event.info "Using in-cluster config"], ?_, ?_⟩
  · intro e he
    split_ifs at he
    · rcases List.mem_append.1 he with h1 | h1
      · exact hlog e h1
      · simp at h1
        exact Or.inl ⟨_, h1⟩
    · rcases List.mem_append.1 he with h1 | h1
      · exact hlog e h1
      · simp at h1
        exact Or.inl ⟨_, h1⟩
  · simp [run, hc, h]

/-- The events of the callback invocations are those of the callback itself. -/
theorem run_epochs_events (config : ControllerConfig)
    (eps : List (RestConfig × Option GoError)) (e : Event)
    (h : e ∈ (run_epochs config eps).1) :
    (∃ cc, e = Event.onStart cc) ∨ e = Event.newManager ∨
      (∃ cc, e = Event.managerRun cc config) ∨ (∃ m, e = Event.fatal m) := by
  induction eps with
  | nil => simp [run_epochs] at h
  | cons ep rest ih =>
    obtain ⟨cc0, mRun⟩ := ep
    rcases mRun with _ | (_ | err)
    · simp [run_epochs, run_onStart] at h
      rcases h with h | h | h <;> simp [h]
    · simp only [run_epochs, run_onStart] at h
      rcases List.mem_append.1 h with h | h
      · simp at h
        rcases h with h | h | h <;> simp [h]
      · exact ih h
    · simp [run_epochs, run_onStart] at h
      rcases h with h | h | h | h <;> simp [h]

/-- Callback invocations whose `m.Run` returns nil all return to the elector, which goes
on with the invocations that follow. -/
theorem run_epochs_append (config : ControllerConfig)
    (pre tl : List (RestConfig × Option GoError))
    (hpre : ∀ ep ∈ pre, ep.2 = some none) :
    run_epochs config (pre ++ tl) =
      ((run_epochs config pre).1 ++ (run_epochs config tl).1, (run_epochs config tl).2) ∧
    (run_epochs config pre).2 = none ∧
    countOnStart (run_epochs config pre).1 = pre.length := by
  induction pre with
  | nil => simp [run_epochs, countOnStart]
  | cons ep rest ih =>
    obtain ⟨cc0, mRun⟩ := ep
    have h0 : mRun = some none := hpre (cc0, mRun) (by simp)
    subst h0
    have ih1 := ih (fun ep hep => hpre ep (by simp [hep]))
    obtain ⟨ha, hb, hc⟩ := ih1
    refine ⟨?_, ?_, ?_⟩
    · simp [run_epochs, run_onStart, ha]
    · simp [run_epochs, run_onStart, hb]
    · simp [run_epochs, run_onStart, countOnStart, hc]

/-- Counting callback invocations distributes over concatenation. -/
theorem countOnStart_append (xs ys : List Event) :
    countOnStart (xs ++ ys) = countOnStart xs + countOnStart ys := by
  induction xs with
  | nil => simp [countOnStart]
  | cons x rest ih =>
    cases x <;> simp [countOnStart, ih]
    omega

/-- A list of log lines holds no callback invocation. -/
theorem countOnStart_log (xs : List Event)
    (h : ∀ e ∈ xs, (∃ m, e = Event.info m) ∨ (∃ m, e = Event.error m)) :
    countOnStart xs = 0 := by
  induction xs with
  | nil => simp [countOnStart]
  | cons x rest ih =>
    have hx := h x (by simp)
    have hr := ih (fun e he => h e (by simp [he]))
    rcases hx with ⟨m, rfl⟩ | ⟨m, rfl⟩ <;> simp [countOnStart, hr]

/-! ## The claims -/

/-- C1, as stated, fails: with `route53ZoneType = "invalid"` and a client configuration
that builds, `run` logs no fatal line, creates the leader elector and runs it. -/
theorem run_invalid_zone_reaches_elector :
    optionsInvalidZone.route53ZoneType = "invalid" ∧
    run optionsInvalidZone worldIdle =
      ([Event.error "stat /.kube/config: no such file or directory",
        Event.info "Using in-cluster config",
        Event.newLeaderElection "aws-global-accelerator-controller" "default",
        Event.leRun ⟨"in-cluster"⟩], Outcome.blocked) := by
  decide

/-- C1, amended: `run` does not validate `route53ZoneType`.  For every options value,
whatever its zone-type string, once the client configuration builds the leader elector
is created and run, and nothing but info and error lines are logged before that; a
zone-type string other than "public" and "private" (such as "invalid") is assembled as
the unset zone type, like the empty string. -/
theorem run_reaches_elector_any_zone (o : options) (w : World) (cfg : RestConfig)
    (h : w.buildConfigFromFlags (controllerConfig w).2.2 (controllerConfig w).2.1
      = Except.ok cfg) :
    (∃ pre post, (∀ e ∈ pre, (∃ m, e = Event.info m) ∨ (∃ m, e = Event.error m)) ∧
      (run o w).1 = pre ++ Event.newLeaderElection "aws-global-accelerator-controller"
        (run_ns w) :: Event.leRun cfg :: post) ∧
    (o.route53ZoneType ≠ "public" → o.route53ZoneType ≠ "private" →
      (run_config o).Route53.map (fun r => r.ZoneType) = some aws.ZoneTypeUnset) := by
  refine ⟨?_, ?_⟩
  · obtain ⟨pre, post, hpre, htrace, _⟩ := run_of_ok o w cfg h
    exact ⟨pre, post, hpre, htrace⟩
  · intro h1 h2
    simp [run_config, run_route53ZoneType, aws.ZoneTypePublic, aws.ZoneTypePrivate, h1, h2]

/-- Witness of `run_reaches_elector_any_zone`: the zone type "invalid" in a world whose
client configuration builds. -/
theorem run_reaches_elector_any_zone_witness :
    (∃ pre post, (∀ e ∈ pre, (∃ m, e = Event.info m) ∨ (∃ m, e = Event.error m)) ∧
      (run optionsInvalidZone worldIdle).1 =
        pre ++ Event.newLeaderElection "aws-global-accelerator-controller"
          (run_ns worldIdle) :: Event.leRun ⟨"in-cluster"⟩ :: post) ∧
    (optionsInvalidZone.route53ZoneType ≠ "public" →
      optionsInvalidZone.route53ZoneType ≠ "private" →
      (run_config optionsInvalidZone).Route53.map (fun r => r.ZoneType)
        = some aws.ZoneTypeUnset) :=
  run_reaches_elector_any_zone optionsInvalidZone worldIdle ⟨"in-cluster"⟩ rfl

/-- C2: every configuration that `run` hands to `m.Run` has its three sub-configurations
present, and they carry the fields of the options verbatim: `workers` in all three,
`clusterName` in GlobalAccelerator and Route53, `annotationFilters` and
`route53TXTOwnerID` in Route53. -/
theorem run_config_verbatim (o : options) (w : World) (cc : RestConfig)
    (c : ControllerConfig) (h : Event.managerRun cc c ∈ (run o w).1) :
    ∃ ga r53 egb, c.GlobalAccelerator = some ga ∧ c.Route53 = some r53 ∧
      c.EndpointGroupBinding = some egb ∧
      ga.Workers = o.workers ∧ r53.Workers = o.workers ∧ egb.Workers = o.workers ∧
      ga.ClusterName = o.clusterName ∧ r53.ClusterName = o.clusterName ∧
      r53.AnnotationFilters = o.annotationFilters ∧
      r53.TXTOwnerID = o.route53TXTOwnerID := by
  have hc : c = run_config o := by
    rcases hb : w.buildConfigFromFlags (controllerConfig w).2.2 (controllerConfig w).2.1
      with err | cfg
    · obtain ⟨pre, hpre, hrun⟩ := run_of_error o w err hb
      rw [hrun] at h
      rcases List.mem_append.1 h with h1 | h1
      · rcases hpre _ h1 with ⟨m, hm⟩ | ⟨m, hm⟩ <;> cases hm
      · simp at h1
    · obtain ⟨pre, post, hpre, htrace, hpost⟩ := run_of_ok o w cfg hb
      rw [htrace] at h
      rcases List.mem_append.1 h with h1 | h1
      · rcases hpre _ h1 with ⟨m, hm⟩ | ⟨m, hm⟩ <;> cases hm
      · simp only [List.mem_cons] at h1
        rcases h1 with h1 | h1 | h1
        · cases h1
        · cases h1
        · rcases hpost with ⟨out, he, _⟩ | ⟨evs, he, hres⟩
          · have h2 : Event.managerRun cc c ∈ (run_epochs (run_config o)
                (w.elector "aws-global-accelerator-controller" (run_ns w) cfg).epochs).1 := by
              rw [he]; exact h1
            exact run_epochs_managerRun _ _ _ _ h2
          · have h3 : Event.managerRun cc c ∈ evs := by
              rcases hres with ⟨_, hp, _⟩ | ⟨err, _, hp, _⟩
              · rw [hp] at h1; exact h1
              · rw [hp] at h1
                rcases List.mem_append.1 h1 with h4 | h4
                · exact h4
                · cases err <;> simp [run_last] at h4
            have h2 : Event.managerRun cc c ∈ (run_epochs (run_config o)
                (w.elector "aws-global-accelerator-controller" (run_ns w) cfg).epochs).1 := by
              rw [he]; exact h3
            exact run_epochs_managerRun _ _ _ _ h2
  subst hc
  exact ⟨_, _, _, rfl, rfl, rfl, rfl, rfl, rfl, rfl, rfl, rfl, rfl⟩

/-- Witness of `run_config_verbatim`: the one callback invocation of `worldOneEpoch`
receives the configuration assembled from `optionsSample`. -/
theorem run_config_verbatim_witness :
    Event.managerRun ⟨"in-cluster"⟩ (run_config optionsSample)
      ∈ (run optionsSample worldOneEpoch).1 ∧
    ∃ ga r53 egb, (run_config optionsSample).GlobalAccelerator = some ga ∧
      (run_config optionsSample).Route53 = some r53 ∧
      (run_config optionsSample).EndpointGroupBinding = some egb ∧
      ga.Workers = 4 ∧ r53.Workers = 4 ∧ egb.Workers = 4 ∧
      ga.ClusterName = "prod" ∧ r53.ClusterName = "prod" ∧
      r53.AnnotationFilters = [("team", "edge")] ∧
      r53.TXTOwnerID = "owner-a" :=
  ⟨by decide, run_config_verbatim optionsSample worldOneEpoch ⟨"in-cluster"⟩
    (run_config optionsSample) (by decide)⟩

/-- C3: for a zone-type string among "public", "private" and the empty string, the zone
type of the assembled Route53 configuration converts back to that string: "public"
gives `ZoneTypePublic`, "private" gives `ZoneTypePrivate`, the empty string the unset
zone type; two permitted strings with the same zone type are the same string. -/
theorem run_zone_type_roundtrip (o : options)
    (h : o.route53ZoneType = "public" ∨ o.route53ZoneType = "private" ∨
      o.route53ZoneType = "") :
    (run_config o).Route53.map (fun r => r.ZoneType.val) = some o.route53ZoneType ∧
    (o.route53ZoneType = "public" →
      (run_config o).Route53.map (fun r => r.ZoneType) = some aws.ZoneTypePublic) ∧
    (o.route53ZoneType = "private" →
      (run_config o).Route53.map (fun r => r.ZoneType) = some aws.ZoneTypePrivate) ∧
    (o.route53ZoneType = "" →
      (run_config o).Route53.map (fun r => r.ZoneType) = some aws.ZoneTypeUnset) ∧
    (∀ o2 : options, (o2.route53ZoneType = "public" ∨ o2.route53ZoneType = "private" ∨
        o2.route53ZoneType = "") →
      (run_config o).Route53.map (fun r => r.ZoneType)
        = (run_config o2).Route53.map (fun r => r.ZoneType) →
      o.route53ZoneType = o2.route53ZoneType) := by
  have key : ∀ p : options, (p.route53ZoneType = "public" ∨ p.route53ZoneType = "private" ∨
      p.route53ZoneType = "") → (run_route53ZoneType p).val = p.route53ZoneType := by
    intro p hp
    rcases hp with hp | hp | hp <;>
      simp [run_route53ZoneType, aws.ZoneTypePublic, aws.ZoneTypePrivate,
        aws.ZoneTypeUnset, hp]
  refine ⟨?_, ?_, ?_, ?_, ?_⟩
  · simp [run_config, key o h]
  · intro hp
    simp [run_config, run_route53ZoneType, aws.ZoneTypePublic, hp]
  · intro hp
    simp [run_config, run_route53ZoneType, aws.ZoneTypePublic, aws.ZoneTypePrivate, hp]
  · intro hp
    simp [run_config, run_route53ZoneType, aws.ZoneTypePublic, aws.ZoneTypePrivate, hp]
  · intro o2 h2 heq
    simp only [run_config, Option.map_some', Option.some.injEq] at heq
    rw [← key o h, ← key o2 h2, heq]

/-- Witness of `run_zone_type_roundtrip` at the zone type "private". -/
theorem run_zone_type_roundtrip_witness :
    (run_config optionsSample).Route53.map (fun r => r.ZoneType.val) = some "private" ∧
    (run_config optionsSample).Route53.map (fun r => r.ZoneType)
      = some aws.ZoneTypePrivate :=
  have h := run_zone_type_roundtrip optionsSample (Or.inr (Or.inl rfl))
  ⟨h.1, h.2.2.1 rfl⟩

/-- C4: when `clientcmd.BuildConfigFromFlags` returns an error, `run` ends the process
with the fatal line for that error as its last event; before it only info and error
lines are logged, so no leader elector is created or run, the callback is not invoked
and no configuration is handed to a manager. -/
theorem run_build_error_fatal (o : options) (w : World) (err : String)
    (h : w.buildConfigFromFlags (controllerConfig w).2.2 (controllerConfig w).2.1
      = Except.error err) :
    (run o w).2 = Outcome.fatalExit ∧
    (∃ pre, (∀ e ∈ pre, (∃ m, e = Event.info m) ∨ (∃ m, e = Event.error m)) ∧
      (run o w).1 = pre ++ [Event.fatal ("Error building rest config: " ++ err)]) ∧
    (∀ n s, Event.newLeaderElection n s ∉ (run o w).1) ∧
    (∀ cfg, Event.leRun cfg ∉ (run o w).1) ∧
    (∀ cc, Event.onStart cc ∉ (run o w).1) ∧
    Event.newManager ∉ (run o w).1 ∧
    (∀ cc c, Event.managerRun cc c ∉ (run o w).1) := by
  obtain ⟨pre, hpre, hrun⟩ := run_of_error o w err h
  have hno : ∀ e ∈ (run o w).1,
      (∃ m, e = Event.info m) ∨ (∃ m, e = Event.error m) ∨ (∃ m, e = Event.fatal m) := by
    intro e he
    rw [hrun] at he
    rcases List.mem_append.1 he with h1 | h1
    · rcases hpre e h1 with h2 | h2
      · exact Or.inl h2
      · exact Or.inr (Or.inl h2)
    · simp at h1
      exact Or.inr (Or.inr ⟨_, h1⟩)
  refine ⟨by rw [hrun], ⟨pre, hpre, by rw [hrun]⟩, ?_, ?_, ?_, ?_, ?_⟩
  · intro n s hm
    rcases hno _ hm with ⟨m, hm⟩ | ⟨m, hm⟩ | ⟨m, hm⟩ <;> cases hm
  · intro cfg hm
    rcases hno _ hm with ⟨m, hm⟩ | ⟨m, hm⟩ | ⟨m, hm⟩ <;> cases hm
  · intro cc hm
    rcases hno _ hm with ⟨m, hm⟩ | ⟨m, hm⟩ | ⟨m, hm⟩ <;> cases hm
  · intro hm
    rcases hno _ hm with ⟨m, hm⟩ | ⟨m, hm⟩ | ⟨m, hm⟩ <;> cases hm
  · intro cc c hm
    rcases hno _ hm with ⟨m, hm⟩ | ⟨m, hm⟩ | ⟨m, hm⟩ <;> cases hm

/-- Witness of `run_build_error_fatal`: in `worldBadClient` the run is the info line, the
fatal line, and the end of the process. -/
theorem run_build_error_fatal_witness :
    run optionsSample worldBadClient =
      ([Event.info "Using kubeconfig: /tmp/broken",
        Event.fatal "Error building rest config: invalid configuration"],
       Outcome.fatalExit) ∧
    (run optionsSample worldBadClient).2 = Outcome.fatalExit ∧
    (∀ cc, Event.onStart cc ∉ (run optionsSample worldBadClient).1) :=
  have h := run_build_error_fatal optionsSample worldBadClient "invalid configuration" rfl
  ⟨by decide, h.1, h.2.2.2.2.1⟩

/-- C5, as stated, fails: when `m.Run` returns the error `boom`, the callback logs it
with `klog.Fatalf` and the process ends; in `worldManagerFails` the elector's second
invocation never happens. -/
theorem onStart_manager_error_ends_process :
    run_onStart (run_config ControllerCmd) ⟨"in-cluster"⟩ (some (some "boom")) =
      ([Event.onStart ⟨"in-cluster"⟩, Event.newManager,
        Event.managerRun ⟨"in-cluster"⟩ (run_config ControllerCmd),
        Event.fatal "Error running controller: boom"], CallbackEnd.fatalExit) ∧
    run ControllerCmd worldManagerFails =
      ([Event.info "Using kubeconfig: /.kube/config",
        Event.newLeaderElection "aws-global-accelerator-controller" "default",
        Event.leRun ⟨"in-cluster"⟩,
        Event.onStart ⟨"in-cluster"⟩, Event.newManager,
        Event.managerRun ⟨"in-cluster"⟩ (run_config ControllerCmd),
        Event.fatal "Error running controller: boom"], Outcome.fatalExit) := by
  decide

/-- C5, amended: a non-nil error returned by `m.Run` inside the callback is fatal to the
process.  When the callback invocations before it all returned nil, `run` ends the
process with the fatal line for that error right after that `m.Run`, and the elector
gets no further invocation; the callback returns to the elector exactly when `m.Run`
returns nil. -/
theorem onStart_error_fatal (o : options) (w : World) (cfg : RestConfig)
    (h : w.buildConfigFromFlags (controllerConfig w).2.2 (controllerConfig w).2.1
      = Except.ok cfg)
    (pre rest : List (RestConfig × Option GoError)) (cc : RestConfig) (err : String)
    (hep : (w.elector "aws-global-accelerator-controller" (run_ns w) cfg).epochs
      = pre ++ (cc, some (some err)) :: rest)
    (hpre : ∀ ep ∈ pre, ep.2 = some none) :
    (run o w).2 = Outcome.fatalExit ∧
    (∃ evs, (run o w).1 = evs ++ [Event.onStart cc, Event.newManager,
      Event.managerRun cc (run_config o),
      Event.fatal ("Error running controller: " ++ err)]) ∧
    countOnStart (run o w).1 = pre.length + 1 ∧
    (∀ r, (run_onStart (run_config o) cc r).2 = CallbackEnd.returned ↔ r = some none) := by
  obtain ⟨lg, post, hlg, htrace, hpost⟩ := run_of_ok o w cfg h
  obtain ⟨happ, _, hcnt⟩ := run_epochs_append (run_config o) pre
    ((cc, some (some err)) :: rest) hpre
  rw [hep, happ] at hpost
  have htl : run_epochs (run_config o) ((cc, some (some err)) :: rest) =
      ([Event.onStart cc, Event.newManager, Event.managerRun cc (run_config o),
        Event.fatal ("Error running controller: " ++ err)], some Outcome.fatalExit) := by
    simp [run_epochs, run_onStart]
  rw [htl] at hpost
  have hcb : ∀ r, (run_onStart (run_config o) cc r).2 = CallbackEnd.returned ↔
      r = some none := by
    intro r
    rcases r with _ | (_ | e) <;> simp [run_onStart]
  rcases hpost with ⟨out, he, hout⟩ | ⟨evs, he, _⟩
  · simp only [Prod.mk.injEq, Option.some.injEq] at he
    obtain ⟨hp, ho⟩ := he
    refine ⟨by rw [hout, ← ho], ?_, ?_, hcb⟩
    · refine ⟨lg ++ Event.newLeaderElection "aws-global-accelerator-controller"
        (run_ns w) :: Event.leRun cfg :: (run_epochs (run_config o) pre).1, ?_⟩
      rw [htrace, ← hp]
      simp
    · rw [htrace, ← hp, countOnStart_append, countOnStart_log lg hlg]
      simp [countOnStart, countOnStart_append, hcnt]
  · simp at he

/-- Witness of `onStart_error_fatal`: `worldManagerFails`, where the failing invocation
is the first of two. -/
theorem onStart_error_fatal_witness :
    (run ControllerCmd worldManagerFails).2 = Outcome.fatalExit ∧
    countOnStart (run ControllerCmd worldManagerFails).1 = 1 :=
  have h := onStart_error_fatal ControllerCmd worldManagerFails ⟨"in-cluster"⟩ rfl
    [] [(⟨"in-cluster"⟩, some none)] ⟨"in-cluster"⟩ "boom" rfl (by simp)
  ⟨h.1, h.2.2.1⟩

/-- C6: once the client configuration is built, the leader elector is created with the
lease name "aws-global-accelerator-controller" and the namespace `run_ns`, and with no
other arguments; that namespace is the value of `POD_NAMESPACE` when it is set and not
empty, "default" when it is unset or empty, and never the empty string. -/
theorem run_lease_name_namespace (o : options) (w : World) (cfg : RestConfig)
    (h : w.buildConfigFromFlags (controllerConfig w).2.2 (controllerConfig w).2.1
      = Except.ok cfg) :
    Event.newLeaderElection "aws-global-accelerator-controller" (run_ns w) ∈ (run o w).1 ∧
    (∀ n s, Event.newLeaderElection n s ∈ (run o w).1 →
      n = "aws-global-accelerator-controller" ∧ s = run_ns w) ∧
    (∀ v, w.lookupEnv "POD_NAMESPACE" = some v → v ≠ "" → run_ns w = v) ∧
    (w.lookupEnv "POD_NAMESPACE" = none ∨ w.lookupEnv "POD_NAMESPACE" = some "" →
      run_ns w = "default") ∧
    run_ns w ≠ "" := by
  obtain ⟨pre, post, hpre, htrace, hpost⟩ := run_of_ok o w cfg h
  have hpost2 : ∀ e ∈ post, (∃ cc, e = Event.onStart cc) ∨ e = Event.newManager ∨
      (∃ cc, e = Event.managerRun cc (run_config o)) ∨ (∃ m, e = Event.fatal m) := by
    intro e he
    rcases hpost with ⟨out, hr, _⟩ | ⟨evs, hr, hres⟩
    · apply run_epochs_events (run_config o)
        (w.elector "aws-global-accelerator-controller" (run_ns w) cfg).epochs
      rw [hr]; exact he
    · have hevs : ∀ e ∈ evs, (∃ cc, e = Event.onStart cc) ∨ e = Event.newManager ∨
          (∃ cc, e = Event.managerRun cc (run_config o)) ∨ (∃ m, e = Event.fatal m) := by
        intro e he
        apply run_epochs_events (run_config o)
          (w.elector "aws-global-accelerator-controller" (run_ns w) cfg).epochs
        rw [hr]; exact he
      rcases hres with ⟨_, hp, _⟩ | ⟨err, _, hp, _⟩
      · rw [hp] at he; exact hevs e he
      · rw [hp] at he
        rcases List.mem_append.1 he with h1 | h1
        · exact hevs e h1
        · cases err <;> simp [run_last] at h1
          exact Or.inr (Or.inr (Or.inr ⟨_, h1⟩))
  refine ⟨?_, ?_, ?_, ?_, ?_⟩
  · rw [htrace]; simp
  · intro n s hm
    rw [htrace] at hm
    rcases List.mem_append.1 hm with h1 | h1
    · rcases hpre _ h1 with ⟨m, hm⟩ | ⟨m, hm⟩ <;> cases hm
    · simp only [List.mem_cons] at h1
      rcases h1 with h1 | h1 | h1
      · cases h1; exact ⟨rfl, rfl⟩
      · cases h1
      · rcases hpost2 _ h1 with ⟨m, hm⟩ | hm | ⟨m, hm⟩ | ⟨m, hm⟩ <;> cases hm
  · intro v hv hne
    simp [run_ns, World.getenv, hv, hne]
  · intro hv
    rcases hv with hv | hv <;> simp [run_ns, World.getenv, hv]
  · unfold run_ns
    simp only
    split_ifs with h0
    · decide
    · exact h0

/-- Witness of `run_lease_name_namespace`: with `POD_NAMESPACE=kube-system` the elector
is created in `kube-system`. -/
theorem run_lease_name_namespace_witness :
    Event.newLeaderElection "aws-global-accelerator-controller" "kube-system"
      ∈ (run optionsSample worldOneEpoch).1 ∧
    run_ns worldOneEpoch = "kube-system" ∧ run_ns worldIdle = "default" :=
  have h := run_lease_name_namespace optionsSample worldOneEpoch ⟨"in-cluster"⟩ rfl
  ⟨h.1, h.2.2.1 "kube-system" rfl (by decide), by decide⟩

/-- C7: with no flag supplied the options bound by `ControllerCmd` are `workers = 1`,
`clusterName = "default"`, an empty `annotationFilters`, `route53ZoneType = ""` and
`route53TXTOwnerID = "aws-global-accelerator-controller"`; the configuration assembled
from them has `Workers = 1` in its three sub-configurations, cluster name "default",
that owner id and the unset zone type. -/
theorem ControllerCmd_defaults :
    ControllerCmd =
      { workers := 1, clusterName := "default", annotationFilters := [],
        route53ZoneType := "",
        route53TXTOwnerID := "aws-global-accelerator-controller" } ∧
    run_config ControllerCmd =
      { GlobalAccelerator := some { Workers := 1, ClusterName := "default" }
        Route53 := some
          { Workers := 1, ClusterName := "default", AnnotationFilters := [],
            TXTOwnerID := "aws-global-accelerator-controller",
            ZoneType := aws.ZoneTypeUnset }
        EndpointGroupBinding := some { Workers := 1 } } := by
  decide

/-- C9: `controllerConfig` returns as master URL the value of the `master` flag, and as
kubeconfig path the `kubeconfig` flag when it is not empty; else `KUBECONFIG` when it is
not empty; else the expansion of `$HOME/.kube/config` when `os.Stat` succeeds on it, and
the empty string when `os.Stat` fails. -/
theorem controllerConfig_precedence (w : World) :
    (controllerConfig w).2.2 = w.viperGetString "master" ∧
    (w.viperGetString "kubeconfig" ≠ "" →
      (controllerConfig w).2.1 = w.viperGetString "kubeconfig") ∧
    (w.viperGetString "kubeconfig" = "" → w.getenv "KUBECONFIG" ≠ "" →
      (controllerConfig w).2.1 = w.getenv "KUBECONFIG") ∧
    (w.viperGetString "kubeconfig" = "" → w.getenv "KUBECONFIG" = "" →
      w.stat (w.getenv "HOME" ++ "/.kube/config") = none →
      (controllerConfig w).2.1 = w.getenv "HOME" ++ "/.kube/config") ∧
    (w.viperGetString "kubeconfig" = "" → w.getenv "KUBECONFIG" = "" →
      ∀ err, w.stat (w.getenv "HOME" ++ "/.kube/config") = some err →
      (controllerConfig w).2.1 = "") := by
  refine ⟨?_, ?_, ?_, ?_, ?_⟩
  · simp [controllerConfig]
  · intro h1
    simp [controllerConfig, h1]
  · intro h1 h2
    simp [controllerConfig, h1, h2]
  · intro h1 h2 h3
    simp [controllerConfig, expandHomeKubeConfig, h1, h2, h3]
  · intro h1 h2 err h3
    simp [controllerConfig, expandHomeKubeConfig, h1, h2, h3]

/-- Witness of `controllerConfig_precedence`: in `worldHomeConfig` the path found under
`HOME` is returned together with the `master` flag. -/
theorem controllerConfig_precedence_witness :
    (controllerConfig worldHomeConfig).2.2 = "https://10.0.0.1:6443" ∧
    (controllerConfig worldHomeConfig).2.1 = "/home/op/.kube/config" :=
  have h := controllerConfig_precedence worldHomeConfig
  ⟨h.1, h.2.2.2.1 rfl rfl rfl⟩

/-- C10, the failing input: when every callback invocation returns and `le.Run` then
returns a nil error, the last statement of `run` evaluates `err.Error()` on nil; the
call ends in a nil-dereference panic, and no fatal line is logged. -/
theorem run_elector_nil_panics (o : options) (w : World) (cfg : RestConfig)
    (h : w.buildConfigFromFlags (controllerConfig w).2.2 (controllerConfig w).2.1
      = Except.ok cfg)
    (hep : ∀ ep ∈ (w.elector "aws-global-accelerator-controller" (run_ns w) cfg).epochs,
      ep.2 = some none)
    (hres : (w.elector "aws-global-accelerator-controller" (run_ns w) cfg).result
      = some none) :
    (run o w).2 = Outcome.nilPanic ∧ ∀ m, Event.fatal m ∉ (run o w).1 := by
  obtain ⟨pre, post, hpre, htrace, hpost⟩ := run_of_ok o w cfg h
  obtain ⟨happ, hnone, _⟩ := run_epochs_append (run_config o)
    (w.elector "aws-global-accelerator-controller" (run_ns w) cfg).epochs [] hep
  have hall : ∀ eps : List (RestConfig × Option GoError), (∀ ep ∈ eps, ep.2 = some none) →
      ∀ m, Event.fatal m ∉ (run_epochs (run_config o) eps).1 := by
    intro eps
    induction eps with
    | nil => intro _ m; simp [run_epochs]
    | cons ep tl ih =>
      intro hh m
      obtain ⟨cc0, mRun⟩ := ep
      have h0 : mRun = some none := hh (cc0, mRun) (by simp)
      subst h0
      have ih1 := ih (fun ep hep => hh ep (by simp [hep])) m
      simp only [run_epochs, run_onStart]
      intro hm
      rcases List.mem_append.1 hm with h1 | h1
      · simp at h1
      · exact ih1 h1
  rcases hpost with ⟨out, he, _⟩ | ⟨evs, he, hr⟩
  · rw [he] at hnone
    simp at hnone
  · rcases hr with ⟨hr, _, _⟩ | ⟨err, hr, hp, hout⟩
    · rw [hres] at hr
      simp at hr
    · rw [hres] at hr
      simp only [Option.some.injEq] at hr
      subst hr
      refine ⟨by rw [hout]; rfl, ?_⟩
      intro m hm
      rw [htrace, hp] at hm
      rcases List.mem_append.1 hm with h1 | h1
      · rcases hpre _ h1 with ⟨m2, hm2⟩ | ⟨m2, hm2⟩ <;> cases hm2
      · simp only [List.mem_cons] at h1
        rcases h1 with h1 | h1 | h1
        · cases h1
        · cases h1
        · simp only [run_last, List.append_nil] at h1
          have h2 := hall _ hep m
          rw [he] at h2
          exact h2 h1

/-- Witness of `run_elector_nil_panics`: the run of `worldElectorReturnsNil`. -/
theorem run_elector_nil_panics_witness :
    run ControllerCmd worldElectorReturnsNil =
      ([Event.info "Using kubeconfig: /.kube/config",
        Event.newLeaderElection "aws-global-accelerator-controller" "default",
        Event.leRun ⟨"in-cluster"⟩,
        Event.onStart ⟨"in-cluster"⟩, Event.newManager,
        Event.managerRun ⟨"in-cluster"⟩ (run_config ControllerCmd)],
       Outcome.nilPanic) ∧
    (run ControllerCmd worldElectorReturnsNil).2 = Outcome.nilPanic :=
  ⟨by decide, (run_elector_nil_panics ControllerCmd worldElectorReturnsNil ⟨"in-cluster"⟩
    rfl (by decide) rfl).1⟩

end Controller
